import Mathlib

/-!
Shallow embedding of the Felafax service core (`src/felafax-service/main.py`):
the job data model, the cost estimator, the Redis-backed job store updates
performed by `cancel_job` and `run_felafax_training`, the per-line log/progress
monitor, the WebSocket `ConnectionManager.send_message` fan-out, and the
`start_fine_tuning` / `list_jobs` pair.  Python floats are modelled as exact
rationals (ℚ), the Redis store as a function `String → Option JobRec`
(last-writer-wins per key), and timestamps as naturals.
-/

namespace Felafax

/-- `HardwareType` enum from the source. -/
inductive Hardware where
  | tpu
  | trainium
  | gpu
  | amd
deriving DecidableEq, Repr

/-- `ModelPrecision` enum from the source. -/
inductive Precision where
  | bfloat16
  | float32
deriving DecidableEq, Repr

/-- Job status strings used by the source: "pending", "running", "completed",
"failed", "cancelled". -/
inductive Status where
  | pending
  | running
  | completed
  | failed
  | cancelled
deriving DecidableEq, Repr

/-- The opaque training-configuration map.  The source reads exactly three keys
out of it (`num_steps`, `batch_size`, `user_id`); all other entries are carried
opaquely in `extra`.  A key that is absent is `none`. -/
structure Config where
  num_steps : Option Int
  batch_size : Option Int
  user_id : Option String
  extra : List (String × String)
deriving DecidableEq, Repr

/-- `FineTuningRequest` pydantic model from the source. -/
structure FTRequest where
  model : String
  dataset : String
  config : Config
  hardware : Hardware
  precision : Precision
  user_id : Option String
deriving DecidableEq, Repr

/-- `TrainingJob` pydantic model from the source (the job record stored in
Redis).  `logs` is the stored log tail, `metrics` an opaque map. -/
structure JobRec where
  job_id : String
  model : String
  dataset : String
  status : Status
  progress : ℚ
  hardware : Hardware
  precision : Precision
  created_at : Nat
  updated_at : Nat
  config : Config
  logs : List String
  metrics : List (String × String)
deriving DecidableEq, Repr

/-- `CostEstimate` pydantic model from the source. -/
structure CostEstimate where
  estimated_cost : ℚ
  currency : String
  duration_hours : ℚ
  hardware_type : Hardware
  cost_per_hour : ℚ
deriving DecidableEq, Repr

/-- Error classes surfaced by the HTTP handlers: 404 Not Found, a generic
500 internal error carrying `str(e)`, and the `InvalidInput` class named by
the spec (no handler of the source ever produces it; it is present so the
spec's claim about it can be stated). -/
inductive ApiError where
  | notFound
  | internalError (msg : String)
  | invalidInput
deriving DecidableEq, Repr

/-- `HARDWARE_COSTS` table from the source (dollars per hour, exact). -/
def HARDWARE_COSTS : Hardware → ℚ
  | .tpu => 322 / 100
  | .trainium => 403 / 100
  | .gpu => 1
  | .amd => 80 / 100

/-- `model_size_factor` dictionary of `estimate_cost`, with the
`.get(request.model, 1.0)` default for unknown model names. -/
def model_size_factor (m : String) : ℚ :=
  if m = "llama3-2-1b" then 1
  else if m = "llama3-2-3b" then 5 / 2
  else if m = "llama3-1-8b" then 6
  else if m = "llama3-1-70b" then 50
  else if m = "llama3-1-405b" then 300
  else 1

/-- `estimate_cost` handler (source lines 264–294).  `batch_size` is read from
the config with default 8.  A zero batch size raises `ZeroDivisionError` in
`8 / batch_size`, which the blanket `except` turns into an HTTP 500 whose
detail is `str(e)`; every nonzero batch size reaches the `return`. -/
def estimate_cost (req : FTRequest) : Except ApiError CostEstimate :=
  let base_hours := model_size_factor req.model
  let batch_size := req.config.batch_size.getD 8
  if batch_size = 0 then
    .error (.internalError "division by zero")
  else
    let estimated_hours := base_hours * (8 / (batch_size : ℚ))
    let cost_per_hour := HARDWARE_COSTS req.hardware
    .ok { estimated_cost := estimated_hours * cost_per_hour
          currency := "USD"
          duration_hours := estimated_hours
          hardware_type := req.hardware
          cost_per_hour := cost_per_hour }

/-- The Redis store, last-writer-wins per key.  Jobs live under key
`"job:" ++ job_id`. -/
def Store : Type := String → Option JobRec

/-- `redis_client.set key value`. -/
def setStore (s : Store) (k : String) (v : JobRec) : Store :=
  fun k2 => if k2 = k then some v else s k2

/-- The `job:{job_id}` key of the source. -/
def jobKey (jobId : String) : String := "job:" ++ jobId

/-- The record mutation inside `cancel_job` (source lines 217–219):
`status = "cancelled"`, `updated_at = now`, unconditionally on whatever record
was read. -/
def cancelUpdate (now : Nat) (j : JobRec) : JobRec :=
  { j with status := .cancelled, updated_at := now }

/-- `cancel_job` handler (source lines 209–226): 404 when the key is absent,
otherwise re-store the record with `status = "cancelled"`.  No check of the
current status is made; actual process termination is a comment. -/
def cancel_job (s : Store) (jobId : String) (now : Nat) : Except ApiError Store :=
  match s (jobKey jobId) with
  | none => .error .notFound
  | some j => .ok (setStore s (jobKey jobId) (cancelUpdate now j))

/-- The end-of-process record mutation of `run_felafax_training` (source lines
417–423): after `process.wait()` returns `return_code`, the stored record gets
`status = completed if return_code == 0 else failed` and `progress = 100.0`,
unconditionally on whatever status was stored. -/
def finalUpdate (return_code : Int) (now : Nat) (j : JobRec) : JobRec :=
  { j with status := if return_code = 0 then .completed else .failed
           progress := 100
           updated_at := now }

/-- The end-of-process store step of `run_felafax_training`: read the record,
apply `finalUpdate` and write it back when present (`if job_data:`). -/
def finishJob (return_code : Int) (now : Nat) (s : Store) (jobId : String) : Store :=
  match s (jobKey jobId) with
  | none => s
  | some j => setStore s (jobKey jobId) (finalUpdate return_code now j)

/-- The `except` handler of `run_felafax_training` (source lines 427–436): the
triggering error `e` is passed to `logger.error` only; the stored record gets
`status = "failed"` and a bumped `updated_at`, and nothing else — in
particular `metrics` is untouched. -/
def failUpdate (e : String) (now : Nat) (j : JobRec) : JobRec :=
  let _ := e
  { j with status := .failed, updated_at := now }

/-- The store step of the `except` handler of `run_felafax_training`: read the
record and, when present, write it back with `status = "failed"`. -/
def handleFault (e : String) (now : Nat) (s : Store) (jobId : String) : Store :=
  match s (jobKey jobId) with
  | none => s
  | some j => setStore s (jobKey jobId) (failUpdate e now j)

/-! ### The per-line monitor loop of `run_felafax_training` (source lines 385–411) -/

/-- Python's `str.isspace` characters relevant to `\s` and `strip()`
(space, tab, newline, carriage return, vertical tab, form feed). -/
def isPySpace (c : Char) : Bool :=
  c = ' ' || c = '\t' || c = '\n' || c = '\r' || c = '\x0b' || c = '\x0c'

/-- Python `str.strip()`: remove leading and trailing whitespace. -/
def pyStrip (s : String) : String :=
  String.mk (((s.toList.dropWhile isPySpace).reverse.dropWhile isPySpace).reverse)

/-- Python `str.lower()` (ASCII case mapping suffices for the log lines). -/
def pyLower (s : String) : String :=
  String.mk (s.toList.map Char.toLower)

/-- Python's `pat in s` substring test. -/
def containsSub (pat : List Char) : List Char → Bool
  | [] => pat.isEmpty
  | c :: rest => pat.isPrefixOf (c :: rest) || containsSub pat rest

/-- Numeric value of a digit run (`int()` on the captured group). -/
def digitsToNat (ds : List Char) : Nat :=
  ds.foldl (fun a c => 10 * a + (c.toNat - 48)) 0

/-- One anchored attempt of the regex `step\s*(\d+)`: literal `step`, then
greedy `\s*`, then the captured maximal digit run, which must be nonempty. -/
def matchStepAt : List Char → Option Nat
  | 's' :: 't' :: 'e' :: 'p' :: rest =>
    let after := rest.dropWhile isPySpace
    let ds := after.takeWhile Char.isDigit
    if ds.isEmpty then none else some (digitsToNat ds)
  | _ => none

/-- `re.search(r'step\s*(\d+)', ·)`: the leftmost position at which the
pattern matches, scanning start positions left to right. -/
def searchStep : List Char → Option Nat
  | [] => none
  | c :: rest =>
    match matchStepAt (c :: rest) with
    | some n => some n
    | none => searchStep rest

/-- Step extraction of the monitor: `re.search(r'step\s*(\d+)', line.lower())`
and `int(...)` on the captured group. -/
def parseStepLine (line : String) : Option Nat :=
  searchStep (pyLower line).toList

/-- The gate `'step' in line.lower() and 'loss' in line.lower()`. -/
def stepGate (line : String) : Bool :=
  containsSub "step".toList (pyLower line).toList
    && containsSub "loss".toList (pyLower line).toList

/-- Python `l[-100:]`: the last `n` elements. -/
def takeLast {α : Type} (n : Nat) (l : List α) : List α :=
  l.drop (l.length - n)

/-- In-flight state of the monitor loop: the local Python `logs` list
(every stripped line so far) together with the job record in the store. -/
structure MonState where
  logs : List String
  job : JobRec
deriving DecidableEq, Repr

/-- Python's two-argument `min` (ties keep the first argument). -/
def pyMin (a b : ℚ) : ℚ :=
  if a ≤ b then a else b

/-- The progress branch of the per-line update (source lines 397–409).  Runs
only when the line contains `step` and `loss` case-insensitively; when the
regex finds a step, `progress = min((step / max_steps) * 100, 100)` with
`max_steps = config.get('num_steps', 1000)` is stored unconditionally — there
is no comparison with the previously stored progress.  With `max_steps = 0`
the division raises `ZeroDivisionError`, which the bare `except: pass`
swallows, leaving progress unchanged. -/
def updateProgress (num_steps : Option Int) (line : String) (j : JobRec) : JobRec :=
  if stepGate line then
    match parseStepLine line with
    | some step =>
      let max_steps := num_steps.getD 1000
      if max_steps = 0 then j
      else { j with progress := pyMin (((step : ℚ) / (max_steps : ℚ)) * 100) 100 }
    | none => j
  else j

/-- One iteration of `for line in iter(process.stdout.readline, '')` with a
nonempty line (source lines 386–411): append the stripped line to the local
`logs`, store the last 100 lines as the job's log tail, bump `updated_at`,
then run the progress branch and write the record back. -/
def processLine (num_steps : Option Int) (now : Nat) (st : MonState) (line : String) :
    MonState :=
  if line = "" then st
  else
    let logs := st.logs ++ [pyStrip line]
    { logs := logs
      job := updateProgress num_steps line
        { st.job with logs := takeLast 100 logs, updated_at := now } }

/-! ### `ConnectionManager.send_message` (source lines 98–105) -/

/-- One WebSocket connection subscribed to a job: its identity and whether
`await connection.send_text(message)` succeeds on it (any exception hits the
bare `except`). -/
structure Conn where
  cid : Nat
  ok : Bool
deriving DecidableEq, Repr

/-- CPython `for connection in lst:` iterates by index.  `sendLoop fuel conns i`
is the loop state with current list `conns` and iterator index `i`: when the
send fails, `lst.remove(connection)` deletes the first element equal to the
current one and the iterator still advances, so the element that shifted into
the current position is never visited.  Returns
(connections delivered to, in order; final connection list).  `fuel` only
bounds the recursion; `send_message` supplies enough for the loop to finish. -/
def sendLoop : Nat → List Conn → Nat → List Conn × List Conn
  | 0, conns, _ => ([], conns)
  | fuel + 1, conns, i =>
    if h : i < conns.length then
      let c := conns.get ⟨i, h⟩
      if c.ok then
        let p := sendLoop fuel conns (i + 1)
        (c :: p.1, p.2)
      else
        sendLoop fuel (conns.erase c) (i + 1)
    else ([], conns)

/-- `ConnectionManager.send_message` restricted to one job id: iterate over
`self.active_connections[job_id]`, sending to each and removing a connection
whose send raises. -/
def send_message (conns : List Conn) : List Conn × List Conn :=
  sendLoop (conns.length + 1) conns 0

/-! ### `start_fine_tuning` (lines 126–149) and `list_jobs` (lines 183–203) -/

/-- The `TrainingJob` record built by `start_fine_tuning` (source lines
132–143): status `pending`, progress `0.0`, `config = request.config`; the
request's top-level `user_id` is not among the constructor arguments — the
`TrainingJob` model has no such field at all. -/
def makeJob (jobId : String) (now : Nat) (req : FTRequest) : JobRec :=
  { job_id := jobId
    model := req.model
    dataset := req.dataset
    status := .pending
    progress := 0
    hardware := req.hardware
    precision := req.precision
    created_at := now
    updated_at := now
    config := req.config
    logs := []
    metrics := [] }

/-- The per-job filter of `list_jobs` (source line 200):
`user_id is None or job.config.get('user_id') == user_id`. -/
def userFilter (uid : Option String) (j : JobRec) : Bool :=
  match uid with
  | none => true
  | some u => j.config.user_id == some u

/-- `list_jobs` (source lines 183–203): take the first `limit` job records,
keep those passing the user filter. -/
def list_jobs (uid : Option String) (limit : Nat) (jobs : List JobRec) : List JobRec :=
  (jobs.take limit).filter (userFilter uid)

/-! ### Fixtures used by witnesses and counterexamples -/

/-- A config with every recognised key absent. -/
def cfg0 : Config := { num_steps := none, batch_size := none, user_id := none, extra := [] }

/-- A running job as the monitor would see it after the `pending → running`
write at the top of `run_felafax_training`. -/
def job0 : JobRec :=
  { job_id := "j1", model := "llama3-2-1b", dataset := "d", status := .running,
    progress := 0, hardware := .gpu, precision := .bfloat16, created_at := 0,
    updated_at := 0, config := cfg0, logs := [], metrics := [] }

/-- Monitor state at the start of the output loop. -/
def st0 : MonState := { logs := [], job := job0 }

/-- Monitor state after the line `step 500 loss 0.31`. -/
def st1 : MonState := processLine none 1 st0 "step 500 loss 0.31\n"

/-- Monitor state after the subsequent out-of-order line `step 200 loss 0.29`. -/
def st2 : MonState := processLine none 2 st1 "step 200 loss 0.29\n"

/-! ### Helper lemmas -/

theorem pyMin_eq_min (a b : ℚ) : pyMin a b = min a b := by
  rw [pyMin, min_def]

theorem stepGate_ne_empty {line : String} (h : stepGate line = true) : line ≠ "" := by
  intro he
  subst he
  exact absurd h (by decide)

theorem updateProgress_of_gate_false {line : String} (ns : Option Int) (j : JobRec)
    (h : stepGate line = false) : updateProgress ns line j = j := by
  simp [updateProgress, h]

theorem updateProgress_of_parse_none {line : String} (ns : Option Int) (j : JobRec)
    (h : parseStepLine line = none) : updateProgress ns line j = j := by
  simp [updateProgress, h]

theorem updateProgress_of_some {ns : Option Int} {line : String} {s : Nat} (j : JobRec)
    (hg : stepGate line = true) (hp : parseStepLine line = some s)
    (hn : ns.getD 1000 ≠ 0) :
    updateProgress ns line j =
      { j with progress := pyMin (((s : ℚ) / ((ns.getD 1000 : Int) : ℚ)) * 100) 100 } := by
  simp only [updateProgress, hg, if_true, hp]
  rw [if_neg hn]

theorem updateProgress_logs (ns : Option Int) (line : String) (j : JobRec) :
    (updateProgress ns line j).logs = j.logs := by
  rw [updateProgress]
  split_ifs with h1
  · cases hp : parseStepLine line with
    | none => rfl
    | some s =>
      dsimp only
      split_ifs with h2 <;> rfl
  · rfl

theorem updateProgress_status (ns : Option Int) (line : String) (j : JobRec) :
    (updateProgress ns line j).status = j.status := by
  rw [updateProgress]
  split_ifs with h1
  · cases hp : parseStepLine line with
    | none => rfl
    | some s =>
      dsimp only
      split_ifs with h2 <;> rfl
  · rfl

theorem processLine_of_ne (ns : Option Int) (now : Nat) (st : MonState) (line : String)
    (h : line ≠ "") :
    processLine ns now st line =
      { logs := st.logs ++ [pyStrip line]
        job := updateProgress ns line
          { st.job with logs := takeLast 100 (st.logs ++ [pyStrip line])
                        updated_at := now } } := by
  simp only [processLine, if_neg h]

theorem takeLast_length_le {α : Type} (n : Nat) (l : List α) :
    (takeLast n l).length ≤ n := by
  simp only [takeLast, List.length_drop]
  omega

theorem takeLast_getLast?_concat {α : Type} (n : Nat) (hn : 0 < n) (l : List α) (x : α) :
    (takeLast n (l ++ [x])).getLast? = some x := by
  unfold takeLast
  have hle : (l ++ [x]).length - n ≤ l.length := by
    simp only [List.length_append, List.length_cons, List.length_nil]
    omega
  rw [List.drop_append_of_le_length hle]
  exact List.getLast?_concat _

theorem sendLoop_all_ok (fuel : Nat) :
    ∀ (conns : List Conn) (i : Nat), conns.length ≤ i + fuel →
      (∀ c ∈ conns, c.ok = true) → sendLoop fuel conns i = (conns.drop i, conns) := by
  induction fuel with
  | zero =>
    intro conns i hle _
    rw [sendLoop, List.drop_eq_nil_of_le (by omega)]
  | succ n ih =>
    intro conns i hle hok
    rw [sendLoop]
    dsimp only
    split_ifs with h hco
    · rw [ih conns (i + 1) (by omega) hok]
      rw [List.drop_eq_getElem_cons h]
      rfl
    · exact absurd (hok _ (List.get_mem conns i h)) hco
    · rw [List.drop_eq_nil_of_le (by omega)]

theorem sendLoop_delivered_ok (fuel : Nat) :
    ∀ (conns : List Conn) (i : Nat) (c : Conn),
      c ∈ (sendLoop fuel conns i).1 → c.ok = true := by
  induction fuel with
  | zero =>
    intro conns i c hc
    rw [sendLoop] at hc
    exact absurd hc (List.not_mem_nil c)
  | succ n ih =>
    intro conns i c hc
    rw [sendLoop] at hc
    dsimp only at hc
    by_cases h : i < conns.length
    · rw [dif_pos h] at hc
      by_cases hok : (conns.get ⟨i, h⟩).ok = true
      · rw [if_pos hok] at hc
        rcases List.mem_cons.mp hc with h1 | h1
        · rw [h1]; exact hok
        · exact ih conns (i + 1) c h1
      · rw [if_neg hok] at hc
        exact ih _ (i + 1) c hc
    · rw [dif_neg h] at hc
      exact absurd hc (List.not_mem_nil c)

/-! ### Claims C1, C3, C8: the per-line monitor updates -/

/-- Claim C1, counterexample: with the default `num_steps = 1000`, the line
`step 500 loss 0.31` sets the running job's progress to 50, and the
subsequent out-of-order line `step 200 loss 0.29` overwrites it with 20 —
the stored progress decreases while the job is Running, contradicting the
claimed monotonicity. -/
theorem progress_monotonicity_cex :
    st1.job.status = .running ∧ st1.job.progress = 50 ∧ st2.job.progress = 20 ∧
      st2.job.progress < st1.job.progress := by
  have h50 : st1.job.progress = 50 := by
    rw [st1, processLine_of_ne none 1 st0 "step 500 loss 0.31\n" (by decide)]
    dsimp only
    rw [updateProgress_of_some _ (show stepGate "step 500 loss 0.31\n" = true by decide)
      (show parseStepLine "step 500 loss 0.31\n" = some 500 by decide)
      (show (none : Option Int).getD 1000 ≠ 0 by decide)]
    norm_num [pyMin, Option.getD]
  have h20 : st2.job.progress = 20 := by
    rw [st2, processLine_of_ne none 2 st1 "step 200 loss 0.29\n" (by decide)]
    dsimp only
    rw [updateProgress_of_some _ (show stepGate "step 200 loss 0.29\n" = true by decide)
      (show parseStepLine "step 200 loss 0.29\n" = some 200 by decide)
      (show (none : Option Int).getD 1000 ≠ 0 by decide)]
    norm_num [pyMin, Option.getD]
  have hs : st1.job.status = .running := by
    rw [st1, processLine_of_ne none 1 st0 "step 500 loss 0.31\n" (by decide)]
    dsimp only
    rw [updateProgress_status]
    rfl
  refine ⟨hs, h50, h20, ?_⟩
  rw [h50, h20]
  norm_num

/-- Claim C1 (amended): the per-line progress branch never consults the
stored progress value — whenever a step is parsed (and `num_steps` is
nonzero), the newly computed value is written unconditionally, so the update
result is identical for any previously stored progress, including a higher
one. -/
theorem progress_overwrite_ignores_stored (ns : Option Int) (now : Nat)
    (logs : List String) (j : JobRec) (p : ℚ) (line : String) (s : Nat)
    (hg : stepGate line = true) (hp : parseStepLine line = some s)
    (hn : ns.getD 1000 ≠ 0) :
    (processLine ns now ⟨logs, { j with progress := p }⟩ line).job.progress
      = (processLine ns now ⟨logs, j⟩ line).job.progress := by
  have hne := stepGate_ne_empty hg
  rw [processLine_of_ne _ _ _ _ hne, processLine_of_ne _ _ _ _ hne]
  dsimp only
  rw [updateProgress_of_some _ hg hp hn, updateProgress_of_some _ hg hp hn]

/-- Witness for the amended C1 theorem: a job whose stored progress is
already 77 ends up with the same progress as one stored at 0 after the line
`step 500 loss 0.31`. -/
theorem progress_overwrite_ignores_stored_witness :
    (processLine none 1 ⟨[], { job0 with progress := 77 }⟩ "step 500 loss 0.31\n").job.progress
      = (processLine none 1 ⟨[], job0⟩ "step 500 loss 0.31\n").job.progress :=
  progress_overwrite_ignores_stored none 1 [] job0 77 "step 500 loss 0.31\n" 500
    (by decide) (by decide) (by decide)

/-- Claim C3: for a line passing the case-insensitive `step`/`loss` gate from
which the regex extracts step `s`, the monitor stores
`progress = min 100 (100 * s / N)` with `N = config num_steps`, defaulting to
1000; a line failing the gate or the regex leaves the stored progress (and
the monitor) untouched. -/
theorem progress_formula (ns : Option Int) (now : Nat) (st : MonState) (line : String) :
    (∀ s : Nat, stepGate line = true → parseStepLine line = some s →
        ns.getD 1000 ≠ 0 →
        (processLine ns now st line).job.progress
          = min 100 (100 * (s : ℚ) / ((ns.getD 1000 : Int) : ℚ)))
  ∧ ((stepGate line = false ∨ parseStepLine line = none) →
        (processLine ns now st line).job.progress = st.job.progress) := by
  constructor
  · intro s hg hp hn
    rw [processLine_of_ne _ _ _ _ (stepGate_ne_empty hg)]
    dsimp only
    rw [updateProgress_of_some _ hg hp hn]
    dsimp only
    rw [pyMin_eq_min, min_comm]
    congr 1
    ring
  · intro h
    by_cases he : line = ""
    · rw [he]
      simp [processLine]
    · rw [processLine_of_ne _ _ _ _ he]
      dsimp only
      rcases h with h | h
      · rw [updateProgress_of_gate_false _ _ h]
      · rw [updateProgress_of_parse_none _ _ h]

/-- Witness for C3 at the spec's scenario: `step 500 loss 0.31` with the
default `num_steps = 1000` yields progress 50. -/
theorem progress_formula_witness :
    (processLine none 1 st0 "step 500 loss 0.31\n").job.progress = 50 := by
  have h := (progress_formula none 1 st0 "step 500 loss 0.31\n").1 500
    (by decide) (by decide) (by decide)
  rw [h]
  norm_num [Option.getD, min_def]

/-- Claim C8: after every per-line update on a nonempty line, the stored log
tail holds at most 100 lines and its last element is the (stripped) line
just emitted. -/
theorem logTail_bounded (ns : Option Int) (now : Nat) (st : MonState) (line : String)
    (h : line ≠ "") :
    (processLine ns now st line).job.logs.length ≤ 100
  ∧ (processLine ns now st line).job.logs.getLast? = some (pyStrip line) := by
  rw [processLine_of_ne _ _ _ _ h]
  dsimp only
  rw [updateProgress_logs]
  dsimp only
  exact ⟨takeLast_length_le _ _, takeLast_getLast?_concat 100 (by norm_num) _ _⟩

/-- Witness for C8 on the scenario line. -/
theorem logTail_bounded_witness :
    (processLine none 1 st0 "step 500 loss 0.31\n").job.logs.length ≤ 100
  ∧ (processLine none 1 st0 "step 500 loss 0.31\n").job.logs.getLast?
      = some "step 500 loss 0.31" := by
  have h := logTail_bounded none 1 st0 "step 500 loss 0.31\n" (by decide)
  refine ⟨h.1, ?_⟩
  rw [h.2]
  decide

/-! ### Claims C2, C4, C7: terminal transitions, exit codes, fault handling -/

/-- A job that already finished successfully. -/
def completedJob : JobRec := { job0 with status := .completed, progress := 100 }

/-- A store holding only `completedJob` under `job:j1`. -/
def storeC : Store := fun k => if k = "job:j1" then some completedJob else none

/-- A running job mid-training. -/
def runningJob : JobRec := { job0 with job_id := "j2", progress := 40 }

/-- A store holding only `runningJob` under `job:j2`. -/
def storeR : Store := fun k => if k = "job:j2" then some runningJob else none

/-- Claim C2, counterexample: `cancel_job` on a job whose state is Completed
is not a no-op — it rewrites the stored record to Cancelled; and the
monitor's end-of-process update applied to a Cancelled record overwrites it
with Completed (exit code 0).  Both directions of the claimed
terminal-state stability fail. -/
theorem terminal_noop_cex :
    (cancel_job storeC "j1" 7).map (fun s => s (jobKey "j1"))
        = .ok (some (cancelUpdate 7 completedJob))
  ∧ completedJob.status = .completed
  ∧ (cancelUpdate 7 completedJob).status = .cancelled
  ∧ (finalUpdate 0 8 (cancelUpdate 7 completedJob)).status = .completed :=
  ⟨rfl, rfl, rfl, rfl⟩

/-- Claim C2 (amended): `cancel_job` rewrites any existing record to
Cancelled regardless of its current state — terminal states included — and
the end-of-process transition sets Completed/Failed purely from the exit
code, regardless of the stored state (a Cancelled job included); `cancel_job`
on an absent id is NotFound. -/
theorem cancel_and_finish_overwrite :
    (∀ (now : Nat) (j : JobRec), (cancelUpdate now j).status = .cancelled)
  ∧ (∀ (rc : Int) (now : Nat) (j : JobRec),
      (finalUpdate rc now j).status = if rc = 0 then .completed else .failed)
  ∧ (∀ (s : Store) (jobId : String) (now : Nat) (j : JobRec),
      s (jobKey jobId) = some j →
        cancel_job s jobId now = .ok (setStore s (jobKey jobId) (cancelUpdate now j))) := by
  refine ⟨fun _ _ => rfl, fun _ _ _ => rfl, ?_⟩
  intro s jobId now j h
  rw [cancel_job, h]

/-- Witness for the amended C2 theorem: concrete instantiations, including a
cancel that rewrites a Completed job. -/
theorem cancel_and_finish_overwrite_witness :
    (cancelUpdate 7 completedJob).status = .cancelled
  ∧ (finalUpdate 3 8 runningJob).status = (if (3 : Int) = 0 then Status.completed else .failed)
  ∧ cancel_job storeC "j1" 7 = .ok (setStore storeC (jobKey "j1") (cancelUpdate 7 completedJob)) :=
  ⟨cancel_and_finish_overwrite.1 7 completedJob,
   cancel_and_finish_overwrite.2.1 3 8 runningJob,
   cancel_and_finish_overwrite.2.2 storeC "j1" 7 completedJob rfl⟩

/-- Claim C4: when the output stream ends, the stored record becomes
Completed on exit code 0 and Failed on any nonzero exit code, with progress
forced to 100. -/
theorem exit_code_final_state (rc : Int) (now : Nat) (s : Store) (jobId : String)
    (j : JobRec) (h : s (jobKey jobId) = some j) :
    finishJob rc now s jobId (jobKey jobId) = some (finalUpdate rc now j)
  ∧ (finalUpdate rc now j).progress = 100
  ∧ (rc = 0 → (finalUpdate rc now j).status = .completed)
  ∧ (rc ≠ 0 → (finalUpdate rc now j).status = .failed) := by
  refine ⟨?_, rfl, ?_, ?_⟩
  · rw [finishJob, h]
    simp [setStore]
  · intro h0
    simp [finalUpdate, h0]
  · intro h0
    simp [finalUpdate, h0]

/-- Witness for C4: the running job ends Completed under exit code 0 and
Failed under exit code 1. -/
theorem exit_code_final_state_witness :
    finishJob 0 9 storeR "j2" (jobKey "j2") = some (finalUpdate 0 9 runningJob)
  ∧ (finalUpdate 0 9 runningJob).status = .completed
  ∧ (finalUpdate 1 9 runningJob).status = .failed
  ∧ (finalUpdate 1 9 runningJob).progress = 100 :=
  ⟨(exit_code_final_state 0 9 storeR "j2" runningJob rfl).1,
   (exit_code_final_state 0 9 storeR "j2" runningJob rfl).2.2.1 rfl,
   (exit_code_final_state 1 9 storeR "j2" runningJob rfl).2.2.2 (by decide),
   (exit_code_final_state 1 9 storeR "j2" runningJob rfl).2.1⟩

/-- Claim C7, counterexample: after the monitor's exception handler runs for
a fault `"boom"` on `runningJob` (whose metrics map is empty), the stored
record's metrics map is still empty — the triggering error is not recorded
anywhere in the job, contradicting the claim. -/
theorem fault_metrics_cex :
    handleFault "boom" 3 storeR "j2" (jobKey "j2")
        = some { runningJob with status := .failed, updated_at := 3 }
  ∧ runningJob.metrics = []
  ∧ ({ runningJob with status := Status.failed, updated_at := 3 } : JobRec).metrics = [] :=
  ⟨rfl, rfl, rfl⟩

/-- Claim C7 (amended): when a fault reaches the monitor's exception handler
and the job record exists in the store, the record is rewritten with state
Failed (so the job is not left Running), but the triggering error is only
logged: the stored metrics map is unchanged and the written record does not
depend on the error at all. -/
theorem fault_sets_failed_without_metrics (e : String) (now : Nat) (s : Store)
    (jobId : String) (j : JobRec) (h : s (jobKey jobId) = some j) :
    handleFault e now s jobId (jobKey jobId) = some (failUpdate e now j)
  ∧ (failUpdate e now j).status = .failed
  ∧ (failUpdate e now j).status ≠ .running
  ∧ (failUpdate e now j).metrics = j.metrics
  ∧ (∀ e2 : String, failUpdate e2 now j = failUpdate e now j) := by
  refine ⟨?_, rfl, by simp [failUpdate], rfl, fun _ => rfl⟩
  rw [handleFault, h]
  simp [setStore]

/-- Witness for the amended C7 theorem at the concrete fault `"boom"`. -/
theorem fault_sets_failed_without_metrics_witness :
    handleFault "boom" 3 storeR "j2" (jobKey "j2") = some (failUpdate "boom" 3 runningJob)
  ∧ (failUpdate "boom" 3 runningJob).metrics = runningJob.metrics :=
  ⟨(fault_sets_failed_without_metrics "boom" 3 storeR "j2" runningJob rfl).1,
   (fault_sets_failed_without_metrics "boom" 3 storeR "j2" runningJob rfl).2.2.2.1⟩

/-! ### Claims C5, C6: the cost estimator -/

/-- A request whose config sets `batch_size` to 0. -/
def reqZero : FTRequest :=
  { model := "llama3-2-1b", dataset := "d"
    config := { cfg0 with batch_size := some 0 }
    hardware := .gpu, precision := .bfloat16, user_id := none }

/-- A request whose config sets `batch_size` to the negative value -4. -/
def reqNeg : FTRequest :=
  { model := "llama3-2-1b", dataset := "d"
    config := { cfg0 with batch_size := some (-4) }
    hardware := .gpu, precision := .bfloat16, user_id := none }

/-- The spec's scenario request: model `llama3-2-1b`, hardware `gpu`,
batch size 8. -/
def reqScen : FTRequest :=
  { model := "llama3-2-1b", dataset := "d"
    config := { cfg0 with batch_size := some 8 }
    hardware := .gpu, precision := .bfloat16, user_id := none }

/-- The model names present in the `model_size_factor` table. -/
def knownModels : List String :=
  ["llama3-2-1b", "llama3-2-3b", "llama3-1-8b", "llama3-1-70b", "llama3-1-405b"]

/-- Claim C5, counterexample: a zero batch size makes `estimate_cost` fail
with the generic HTTP 500 internal error produced by the swallowed
`ZeroDivisionError` — not with `InvalidInput` — and the not-strictly-positive
batch size -4 does not fail at all: the estimate succeeds (with a negative
duration). -/
theorem batch_size_error_class_cex :
    estimate_cost reqZero = .error (.internalError "division by zero")
  ∧ estimate_cost reqZero ≠ .error .invalidInput
  ∧ (estimate_cost reqNeg).isOk = true := by
  refine ⟨rfl, ?_, rfl⟩
  have h1 : estimate_cost reqZero = .error (.internalError "division by zero") := rfl
  rw [h1]
  simp

/-- Claim C5 (amended): `estimate_cost` fails only when the configured batch
size (default 8) is exactly zero, and then with the generic internal error
wrapping `ZeroDivisionError`, not `InvalidInput`; for every nonzero batch
size — negative ones included — the operation succeeds. -/
theorem batch_size_error_class (req : FTRequest) :
    (req.config.batch_size.getD 8 = 0 →
        estimate_cost req = .error (.internalError "division by zero"))
  ∧ (req.config.batch_size.getD 8 ≠ 0 → (estimate_cost req).isOk = true) := by
  constructor
  · intro h0
    simp [estimate_cost, h0]
  · intro h0
    simp [estimate_cost, h0, Except.isOk, Except.toBool]

/-- Witness for the amended C5 theorem at batch sizes 0 and -4. -/
theorem batch_size_error_class_witness :
    estimate_cost reqZero = .error (.internalError "division by zero")
  ∧ (estimate_cost reqNeg).isOk = true :=
  ⟨(batch_size_error_class reqZero).1 rfl,
   (batch_size_error_class reqNeg).2 (by decide)⟩

/-- Claim C6: for a positive batch size `b`, the estimate is
`hours = baseHours * (8 / b)` and `cost = hours * costPerHour(hardware)`,
with `baseHours` from the fixed model table, defaulting to 1 for model names
outside it. -/
theorem cost_formula :
    (∀ req : FTRequest, 0 < req.config.batch_size.getD 8 →
        estimate_cost req = .ok
          { estimated_cost := model_size_factor req.model
              * (8 / (req.config.batch_size.getD 8 : ℚ)) * HARDWARE_COSTS req.hardware
            currency := "USD"
            duration_hours := model_size_factor req.model
              * (8 / (req.config.batch_size.getD 8 : ℚ))
            hardware_type := req.hardware
            cost_per_hour := HARDWARE_COSTS req.hardware })
  ∧ (∀ m : String, m ∉ knownModels → model_size_factor m = 1) := by
  constructor
  · intro req h
    have h0 : req.config.batch_size.getD 8 ≠ 0 := by omega
    simp [estimate_cost, h0]
  · intro m hm
    simp only [knownModels, List.mem_cons, List.not_mem_nil, or_false, not_or] at hm
    obtain ⟨h1, h2, h3, h4, h5⟩ := hm
    simp [model_size_factor, h1, h2, h3, h4, h5]

/-- Witness for C6 at the spec's scenario: `llama3-2-1b` on `gpu` with batch
size 8 gives 1.0 hours and $1.00, and an unknown model name falls back to
base hours 1. -/
theorem cost_formula_witness :
    estimate_cost reqScen
      = .ok { estimated_cost := 1, currency := "USD", duration_hours := 1
              hardware_type := .gpu, cost_per_hour := 1 }
  ∧ model_size_factor "mystery-model" = 1 := by
  constructor
  · have h := cost_formula.1 reqScen (by decide)
    rw [h]
    norm_num [model_size_factor, HARDWARE_COSTS, reqScen, cfg0]
  · exact cost_formula.2 "mystery-model" (by decide)

/-! ### Claim C9: subscriber fan-out -/

/-- Claim C9, counterexample: with subscribers `[⟨1, failing⟩, ⟨2, ok⟩]`, the
publish delivers to nobody — subscriber 2, whose delivery would succeed,
remains in the subscriber set but never receives the snapshot, because
removing subscriber 1 during iteration shifts subscriber 2 into the slot the
iterator has already passed.  This contradicts the claim that a failing
subscriber does not prevent delivery to any other current subscriber. -/
theorem publish_skip_cex :
    (send_message [Conn.mk 1 false, Conn.mk 2 true]).1 = []
  ∧ Conn.mk 2 true ∈ (send_message [Conn.mk 1 false, Conn.mk 2 true]).2 := by
  decide

/-- Claim C9 (amended): publish never errors and only successful deliveries
are made; when every subscriber's delivery succeeds, all of them receive the
snapshot and the set is unchanged; but when a delivery fails, the failing
subscriber is removed and iteration continues one position further along the
shrunk list, so the subscriber that shifted into the removed slot is
skipped — neither visited nor delivered to — for that publish. -/
theorem publish_drop_semantics :
    (∀ conns : List Conn, (∀ c ∈ conns, c.ok = true) → send_message conns = (conns, conns))
  ∧ (∀ (a : Conn) (rest : List Conn), a.ok = false →
      send_message (a :: rest) = sendLoop (rest.length + 1) rest 1)
  ∧ (∀ (fuel : Nat) (conns : List Conn) (i : Nat) (c : Conn),
      c ∈ (sendLoop fuel conns i).1 → c.ok = true) := by
  refine ⟨?_, ?_, sendLoop_delivered_ok⟩
  · intro conns h
    rw [send_message, sendLoop_all_ok (conns.length + 1) conns 0 (by omega) h,
      List.drop_zero]
  · intro a rest hfail
    rw [send_message]
    show sendLoop ((a :: rest).length - 1 + 1 + 1) (a :: rest) 0 = _
    rw [sendLoop]
    dsimp only
    rw [dif_pos (by simp)]
    rw [show ((a :: rest).get ⟨0, by simp⟩) = a from rfl, hfail]
    simp only [Bool.false_eq_true, if_false]
    rw [List.erase_cons_head]
    rfl

/-- Witness for the amended C9 theorem: two healthy subscribers both receive
the snapshot; with a failing first subscriber the publish reduces to
resuming at index 1 of the one-element remainder, delivering to nobody. -/
theorem publish_drop_semantics_witness :
    send_message [Conn.mk 5 true, Conn.mk 6 true]
      = ([Conn.mk 5 true, Conn.mk 6 true], [Conn.mk 5 true, Conn.mk 6 true])
  ∧ send_message [Conn.mk 1 false, Conn.mk 2 true] = sendLoop 2 [Conn.mk 2 true] 1 :=
  ⟨publish_drop_semantics.1 [Conn.mk 5 true, Conn.mk 6 true] (by decide),
   publish_drop_semantics.2.1 (Conn.mk 1 false) [Conn.mk 2 true] rfl⟩

/-! ### Claim C10: `user_id` is never stored on the job -/

/-- A request carrying only the top-level `user_id`, with no `user_id` key
inside the config map. -/
def reqTop : FTRequest :=
  { model := "m", dataset := "d", config := cfg0
    hardware := .tpu, precision := .float32, user_id := some "alice" }

/-- Claim C10: the created job record's config is exactly the request's
config; the record is entirely independent of the request's top-level
`user_id`; the `list_jobs` owner filter matches the job precisely when the
submitter placed a `user_id` key inside the config map; and a job whose
config lacks that key never appears in any user-filtered listing. -/
theorem user_id_not_stored (jobId : String) (now : Nat) (req : FTRequest) :
    (makeJob jobId now req).config = req.config
  ∧ (∀ uid : Option String, makeJob jobId now { req with user_id := uid } = makeJob jobId now req)
  ∧ (∀ u : String, userFilter (some u) (makeJob jobId now req) = true ↔ req.config.user_id = some u)
  ∧ (req.config.user_id = none →
      ∀ (u : String) (limit : Nat) (jobs : List JobRec),
        makeJob jobId now req ∉ list_jobs (some u) limit jobs) := by
  refine ⟨rfl, fun _ => rfl, ?_, ?_⟩
  · intro u
    simp [userFilter, makeJob]
  · intro hnone u limit jobs hmem
    rw [list_jobs, List.mem_filter] at hmem
    have hflt := hmem.2
    simp [userFilter, makeJob, hnone] at hflt

/-- Witness for C10: a job submitted with a top-level `user_id` of `alice`
and no config `user_id` key is absent from the listing filtered by `alice`,
even when that very job is in the store. -/
theorem user_id_not_stored_witness :
    makeJob "j9" 4 reqTop ∉ list_jobs (some "alice") 50 [makeJob "j9" 4 reqTop] :=
  (user_id_not_stored "j9" 4 reqTop).2.2.2 rfl "alice" 50 [makeJob "j9" 4 reqTop]

end Felafax
